import Mathlib

/-!
Verification of the dual-subtitle embedder (`dual_subtitle_embedder_python_ffmpeg.py`).

Python strings are modelled as `List Char`; the filesystem and platform are
modelled as explicit oracles passed to the functions that consult them.
The pure command-builder helpers (`ffmpeg_escape_for_subtitles`,
`build_filter_complex`, `build_encode_args`, the argument list of
`run_ffmpeg`), the executable resolver (`ffmpeg_path_guess`), the
drag-and-drop classifier (`App._on_multi_drop`) and the start validation
(`App._start`) are embedded below, keeping the source's names.
-/

/-- Character list of a Lean string literal (the model of a Python `str` constant). -/
def chars (x : String) : List Char := x.toList

/-- The single-quote character (code point 39). -/
def squote : Char := Char.ofNat 39

/-- Does `pat` match the front of `l`? -/
def frontMatches : List Char → List Char → Bool
  | [], _ => true
  | _ :: _, [] => false
  | a :: as, b :: bs => a == b && frontMatches as bs

/-- Does `pat` occur as a contiguous substring of `l`? Model of Python `pat in s`. -/
def containsSub (pat : List Char) : List Char → Bool
  | [] => frontMatches pat []
  | c :: rest => frontMatches pat (c :: rest) || containsSub pat rest

/-- Fuel-indexed worker for `pyReplace` (the fuel bounds the number of steps). -/
def replaceFuel (pat rep : List Char) : Nat → List Char → List Char
  | 0, l => l
  | Nat.succ fuel, l =>
    match l with
    | [] => []
    | c :: rest =>
      if !pat.isEmpty && frontMatches pat (c :: rest) then
        rep ++ replaceFuel pat rep fuel ((c :: rest).drop pat.length)
      else
        c :: replaceFuel pat rep fuel rest

/-- Model of Python `s.replace(pat, rep)` for a nonempty pattern: leftmost,
non-overlapping replacement of every occurrence. -/
def pyReplace (l pat rep : List Char) : List Char := replaceFuel pat rep l.length l

/-- The six ASCII whitespace characters removed by Python `str.strip()`. -/
def pyIsSpace (c : Char) : Bool :=
  c == ' ' || c == '\t' || c == '\n' || c == '\r' || c == Char.ofNat 11 || c == Char.ofNat 12

/-- Model of Python `str.strip()` (ASCII whitespace). -/
def pyStrip (l : List Char) : List Char :=
  ((l.dropWhile pyIsSpace).reverse.dropWhile pyIsSpace).reverse

/-- Model of Python `str.lower()` on the ASCII fragment (the mode strings and
file names the application manipulates are ASCII). -/
def pyLower (l : List Char) : List Char := l.map Char.toLower

/-- Model of `pathlib.Path(p).name` (POSIX flavour): the final path component,
ignoring trailing separators. -/
def pathName (p : List Char) : List Char :=
  let trimmed := (p.reverse.dropWhile (fun c => c == '/')).reverse
  (trimmed.reverse.takeWhile (fun c => c != '/')).reverse

/-- Model of `pathlib.Path(p).suffix`: the extension of the final component,
empty when the last dot is at the start or the end of the name. -/
def pathSuffix (p : List Char) : List Char :=
  let name := pathName p
  let after := name.reverse.takeWhile (fun c => c != '.')
  if after.length = name.length then []
  else
    let i := name.length - after.length - 1
    if 0 < i ∧ i < name.length - 1 then name.drop i else []

/-- Model of `pathlib.Path(p).stem`: the final component without its suffix. -/
def pathStem (p : List Char) : List Char :=
  let name := pathName p
  let after := name.reverse.takeWhile (fun c => c != '.')
  if after.length = name.length then name
  else
    let i := name.length - after.length - 1
    if 0 < i ∧ i < name.length - 1 then name.take i else name

/-- Model of `str(pathlib.Path(d) / f)` (POSIX flavour) for a file name `f`
holding no separators. -/
def pathJoin (d f : List Char) : List Char :=
  let base := (d.reverse.dropWhile (fun c => c == '/')).reverse
  if base.isEmpty then (if d.isEmpty then f else '/' :: f)
  else base ++ '/' :: f

/-- Decimal rendering of a natural number, the model of Python `f"{n}"` for a
nonnegative integer. -/
def pyFmtNat (n : Nat) : List Char := (Nat.repr n).toList

/-- Source constant `DEFAULT_FONT = "Arial"`. -/
def DEFAULT_FONT : List Char := chars (r"Arial")

/-- Source constant `DEFAULT_FONTSIZE = 26`. -/
def DEFAULT_FONTSIZE : Nat := 26

/-- Source constant `DEFAULT_OUTLINE = 2`. -/
def DEFAULT_OUTLINE : Nat := 2

/-- Source constant `DEFAULT_SHADOW = 1`. -/
def DEFAULT_SHADOW : Nat := 1

/-- Source constant `EN_MARGIN_V = 60`. -/
def EN_MARGIN_V : Nat := 60

/-- Source constant `VI_MARGIN_V = 24`. -/
def VI_MARGIN_V : Nat := 24

/-- Default of the English margin spinbox, `App.__init__`: `tk.IntVar(value=60)`. -/
def app_default_en_margin : Nat := 60

/-- Default of the Vietnamese margin spinbox, `App.__init__`: `tk.IntVar(value=24)`. -/
def app_default_vi_margin : Nat := 24

/-- Embedding of `ffmpeg_escape_for_subtitles`: double each backslash, then
escape each colon, then each single quote, and wrap in single quotes. -/
def ffmpeg_escape_for_subtitles (path : List Char) : List Char :=
  let p := pyReplace (pyReplace path (chars (r"\")) (chars (r"\\"))) (chars (r":")) (chars (r"\:"))
  let p2 := pyReplace p [squote] ['\\', squote]
  squote :: (p2 ++ [squote])

/-- The shared `style_common` f-string of `build_filter_complex`. -/
def style_common (font_size : Nat) : List Char :=
  chars (r"FontName=") ++ DEFAULT_FONT ++ chars (r",Fontsize=") ++ pyFmtNat font_size ++
    chars (r",Outline=") ++ pyFmtNat DEFAULT_OUTLINE ++ chars (r",Shadow=") ++ pyFmtNat DEFAULT_SHADOW

/-- Embedding of `build_filter_complex`. -/
def build_filter_complex (en_srt vi_srt : List Char) (downscale_720 : Bool)
    (font_size en_margin vi_margin : Nat) : List Char :=
  let sc := style_common font_size
  let en := ffmpeg_escape_for_subtitles en_srt
  let vi := ffmpeg_escape_for_subtitles vi_srt
  let p1 := chars (r"[0:v]subtitles=") ++ en ++ chars (r":charenc=UTF-8:force_style=") ++ [squote] ++
    chars (r"Alignment=2,MarginV=") ++ pyFmtNat en_margin ++ [','] ++ sc ++ [squote] ++ chars (r"[v1]")
  let p2 := chars (r"[v1]subtitles=") ++ vi ++ chars (r":charenc=UTF-8:force_style=") ++ [squote] ++
    chars (r"Alignment=2,MarginV=") ++ pyFmtNat vi_margin ++ [','] ++ sc ++ [squote] ++ chars (r"[v2]")
  let p3 := if downscale_720 then chars (r"[v2]scale=-2:720[vout]") else chars (r"[v2]copy[vout]")
  if downscale_720 then
    p1 ++ [';'] ++ p2 ++ [';'] ++ p3
  else
    p1 ++ [';'] ++ p2 ++ [';'] ++ chars (r"[v2]format=yuv420p[vout]")

/-- Embedding of `build_encode_args`: `(video_codec_args, audio_codec_args)`
selected from the lowercased mode string. -/
def build_encode_args (mode : List Char) : List (List Char) × List (List Char) :=
  let m := pyLower mode
  if m = chars (r"smallest") then
    ([chars (r"-c:v"), chars (r"libx265"), chars (r"-preset"), chars (r"medium"), chars (r"-crf"), chars (r"28")],
     [chars (r"-c:a"), chars (r"aac"), chars (r"-b:a"), chars (r"128k")])
  else if m = chars (r"smaller") then
    ([chars (r"-c:v"), chars (r"libx264"), chars (r"-preset"), chars (r"medium"), chars (r"-crf"), chars (r"24")],
     [chars (r"-c:a"), chars (r"aac"), chars (r"-b:a"), chars (r"160k")])
  else
    ([chars (r"-c:v"), chars (r"libx264"), chars (r"-preset"), chars (r"medium"), chars (r"-crf"), chars (r"18")],
     [chars (r"-c:a"), chars (r"aac"), chars (r"-b:a"), chars (r"192k")])

/-- Embedding of the argument list `cmd` built by `run_ffmpeg` (the resolved
ffmpeg executable is passed in, the subprocess launch itself is not modelled). -/
def run_ffmpeg_cmd (ffmpeg video en_srt vi_srt out_path mode : List Char)
    (downscale_720 : Bool) (font_size en_margin vi_margin : Nat) : List (List Char) :=
  let filter_complex := build_filter_complex en_srt vi_srt downscale_720 font_size en_margin vi_margin
  let v_args := (build_encode_args mode).1
  let a_args := (build_encode_args mode).2
  [ffmpeg, chars (r"-y"), chars (r"-i"), video, chars (r"-filter_complex"), filter_complex,
    chars (r"-map"), chars (r"[vout]"), chars (r"-map"), chars (r"0:a?")] ++
    v_args ++ a_args ++ [chars (r"-movflags"), chars (r"+faststart"), out_path]

/-- Execution environment consulted by `ffmpeg_path_guess`:
the result of shutil.which, the platform.system() string, and whether the
well-known Windows install location exists. -/
structure ToolEnv where
  which_ffmpeg : Option (List Char)
  system : List Char
  win_candidate_exists : Bool

/-- Embedding of `ffmpeg_path_guess`: the PATH hit when there is one, else the
well-known Windows location when on Windows and it exists, else the
FileNotFoundError message. -/
def ffmpeg_path_guess (env : ToolEnv) : Except (List Char) (List Char) :=
  match env.which_ffmpeg with
  | some p => Except.ok p
  | none =>
    if env.system = chars (r"Windows") ∧ env.win_candidate_exists = true then
      Except.ok (chars (r"C:/ffmpeg/bin/ffmpeg.exe"))
    else
      Except.error (chars (r"FFmpeg executable not found. Install it or add to PATH."))

/-- Source constant `VID_EXTS`. -/
def VID_EXTS : List (List Char) :=
  [chars (r".mp4"), chars (r".mkv"), chars (r".mov"), chars (r".avi"), chars (r".m4v")]

/-- The Vietnamese-name hints of `App._on_multi_drop`. -/
def vi_hints : List (List Char) := [chars (r"vi"), chars (r"viet"), chars (r"vietnam")]

/-- The four path slots held in the `App` StringVars that `_on_multi_drop`
assigns; an empty list models an empty StringVar. -/
structure SlotState where
  video_path : List Char
  en_srt_path : List Char
  vi_srt_path : List Char
  out_dir : List Char
deriving DecidableEq

/-- Embedding of the per-path body of `App._on_multi_drop`; `isDir` is the
`os.path.isdir` oracle. -/
def on_multi_drop_step (isDir : List Char → Bool) (st : SlotState) (p0 : List Char) : SlotState :=
  let p := pyStrip p0
  if p = [] then st
  else if isDir p then { st with out_dir := p }
  else
    let ext := pyLower (pathSuffix p)
    if ext ∈ VID_EXTS then { st with video_path := p }
    else if ext = chars (r".srt") then
      let name := pyLower (pathName p)
      if vi_hints.any (fun k => containsSub k name) then { st with vi_srt_path := p }
      else if st.en_srt_path = [] then { st with en_srt_path := p }
      else { st with vi_srt_path := p }
    else st

/-- Embedding of `App._on_multi_drop` on an already tokenized path list. -/
def on_multi_drop (isDir : List Char → Bool) (st : SlotState) (paths : List (List Char)) : SlotState :=
  paths.foldl (on_multi_drop_step isDir) st

/-- Filesystem oracles consulted by `App._start`. -/
structure FsEnv where
  isFile : List Char → Bool
  isDir : List Char → Bool

/-- Outcome of `App._start`: either a blocking validation error (the interface
stays Idle and no worker thread is launched) or a background run launched with
the given output path. -/
inductive StartResult where
  | blockedMissingFile
  | blockedMissingFolder
  | launched (out_path : List Char)
deriving DecidableEq

/-- Embedding of `App._start`: validate the three files and the output
directory, then launch with output `<video-stem>_dual_subbed.mp4` inside the
output directory. -/
def app_start (env : FsEnv) (video en vi out_dir : List Char) : StartResult :=
  let v := pyStrip video
  let e := pyStrip en
  let w := pyStrip vi
  let o := pyStrip out_dir
  if !(env.isFile v && env.isFile e && env.isFile w) then
    StartResult.blockedMissingFile
  else if !(env.isDir o) then
    StartResult.blockedMissingFolder
  else
    let base := pathStem v
    StartResult.launched (pathJoin o (base ++ chars (r"_dual_subbed.mp4")))

/-- The codec tuple of the normal mode (row 1 of the table in spec section 4.1). -/
def encode_args_normal : List (List Char) × List (List Char) :=
  ([chars (r"-c:v"), chars (r"libx264"), chars (r"-preset"), chars (r"medium"), chars (r"-crf"), chars (r"18")],
   [chars (r"-c:a"), chars (r"aac"), chars (r"-b:a"), chars (r"192k")])

/-- The codec tuple of the smaller mode (row 2 of the table in spec section 4.1). -/
def encode_args_smaller : List (List Char) × List (List Char) :=
  ([chars (r"-c:v"), chars (r"libx264"), chars (r"-preset"), chars (r"medium"), chars (r"-crf"), chars (r"24")],
   [chars (r"-c:a"), chars (r"aac"), chars (r"-b:a"), chars (r"160k")])

/-- The codec tuple of the smallest mode (row 3 of the table in spec section 4.1). -/
def encode_args_smallest : List (List Char) × List (List Char) :=
  ([chars (r"-c:v"), chars (r"libx265"), chars (r"-preset"), chars (r"medium"), chars (r"-crf"), chars (r"28")],
   [chars (r"-c:a"), chars (r"aac"), chars (r"-b:a"), chars (r"128k")])

/-- A valid code point survives the round trip through `Char.ofNat`. -/
theorem char_toNat_ofNat_valid (n : Nat) (h : n.isValidChar) : (Char.ofNat n).toNat = n := by
  rw [Char.ofNat, dif_pos h]
  rfl

/-- ASCII lowercasing of a character is idempotent. -/
theorem char_toLower_idem (c : Char) : Char.toLower (Char.toLower c) = Char.toLower c := by
  have he : ∀ d : Char, Char.toLower d =
      if d.toNat ≥ 65 ∧ d.toNat ≤ 90 then Char.ofNat (d.toNat + 32) else d := fun _ => rfl
  by_cases h : c.toNat ≥ 65 ∧ c.toNat ≤ 90
  · have hv : (c.toNat + 32).isValidChar := Or.inl (by omega)
    have ht := char_toNat_ofNat_valid (c.toNat + 32) hv
    rw [he c, if_pos h, he (Char.ofNat (c.toNat + 32)), ht, if_neg (by omega)]
  · rw [he c, if_neg h, he c, if_neg h]

/-- Lowercasing a string twice is the same as lowercasing it once. -/
theorem pyLower_idem (m : List Char) : pyLower (pyLower m) = pyLower m := by
  induction m with
  | nil => rfl
  | cons c t ih =>
    simp only [pyLower, List.map_cons, List.cons.injEq] at ih ⊢
    exact ⟨char_toLower_idem c, ih⟩

/-- CLAIM C1: the subtitle-path escaping doubles backslashes, then escapes
colons, then single quotes, and wraps the result in single quotes; the
concrete Windows path with a quote given in the spec (C:\Vids\it + quote +
s.srt) escapes to the quoted form given there. -/
theorem C1_path_escaping :
    (∀ path, ffmpeg_escape_for_subtitles path =
      squote :: (pyReplace (pyReplace (pyReplace path (chars (r"\")) (chars (r"\\")))
          (chars (r":")) (chars (r"\:"))) [squote] ['\\', squote] ++ [squote]))
    ∧ ffmpeg_escape_for_subtitles (chars (r"C:\Vids\it") ++ squote :: chars (r"s.srt")) =
      squote :: (chars (r"C\:\\Vids\\it\") ++ squote :: (chars (r"s.srt") ++ [squote])) := by
  constructor
  · intro path
    rfl
  · decide

/-- CLAIM C2 (counterexample): the mode string Smallest is none of the three
strings normal, smaller, smallest, yet `build_encode_args` returns the
smallest tuple for it, not the normal tuple. -/
theorem C2_mode_fallback_counterexample :
    ¬ (build_encode_args (chars (r"Smallest")) = encode_args_normal) ∧
      build_encode_args (chars (r"Smallest")) = encode_args_smallest := by
  decide

/-- CLAIM C2 (amended): the three lowercase mode strings select the three
tuples of the table, and every mode string whose lowercased form is neither
smaller nor smallest yields the normal tuple. -/
theorem C2_mode_fallback_amended :
    build_encode_args (chars (r"normal")) = encode_args_normal
    ∧ build_encode_args (chars (r"smaller")) = encode_args_smaller
    ∧ build_encode_args (chars (r"smallest")) = encode_args_smallest
    ∧ (∀ m, pyLower m ≠ chars (r"smaller") → pyLower m ≠ chars (r"smallest") →
        build_encode_args m = encode_args_normal) := by
  refine ⟨by decide, by decide, by decide, ?_⟩
  intro m h1 h2
  simp only [build_encode_args, if_neg h2, if_neg h1]
  rfl

/-- Witness for the amended C2 at the concrete unrecognized mode string zzz. -/
theorem C2_mode_fallback_witness :
    pyLower (chars (r"zzz")) ≠ chars (r"smaller")
    ∧ pyLower (chars (r"zzz")) ≠ chars (r"smallest")
    ∧ build_encode_args (chars (r"zzz")) = encode_args_normal :=
  ⟨by decide, by decide,
    C2_mode_fallback_amended.2.2.2 (chars (r"zzz")) (by decide) (by decide)⟩

/-- CLAIM C9: compression-mode matching is case-insensitive, and the three
capitalized mode names offered by the combo box select their tuples. -/
theorem C9_mode_case_insensitive :
    (∀ m, build_encode_args m = build_encode_args (pyLower m))
    ∧ build_encode_args (chars (r"Normal")) = encode_args_normal
    ∧ build_encode_args (chars (r"Smaller")) = encode_args_smaller
    ∧ build_encode_args (chars (r"Smallest")) = encode_args_smallest := by
  refine ⟨?_, by decide, by decide, by decide⟩
  intro m
  simp only [build_encode_args, pyLower_idem]

/-- CLAIM C3: the filter chain is exactly two subtitle stages in
English-then-Vietnamese order — the first consumes the input video stream,
applies the English file with Alignment=2 and the English margin and labels
its output, which the second stage consumes to apply the Vietnamese file with
the same alignment and style string but the Vietnamese margin — followed by a
tail holding no further subtitle stage; under the default configuration the
English margin (60) exceeds the Vietnamese margin (24). -/
theorem C3_filter_chain_order :
    (∀ en_srt vi_srt d fs em vm, ∃ tail,
      build_filter_complex en_srt vi_srt d fs em vm =
        (chars (r"[0:v]subtitles=") ++ ffmpeg_escape_for_subtitles en_srt ++
          chars (r":charenc=UTF-8:force_style=") ++ [squote] ++
          chars (r"Alignment=2,MarginV=") ++ pyFmtNat em ++ [','] ++ style_common fs ++
          [squote] ++ chars (r"[v1]"))
        ++ [';'] ++
        (chars (r"[v1]subtitles=") ++ ffmpeg_escape_for_subtitles vi_srt ++
          chars (r":charenc=UTF-8:force_style=") ++ [squote] ++
          chars (r"Alignment=2,MarginV=") ++ pyFmtNat vm ++ [','] ++ style_common fs ++
          [squote] ++ chars (r"[v2]"))
        ++ [';'] ++ tail
      ∧ containsSub (chars (r"subtitles=")) tail = false)
    ∧ app_default_en_margin > app_default_vi_margin
    ∧ app_default_en_margin = 60 ∧ app_default_vi_margin = 24 := by
  refine ⟨?_, by decide, rfl, rfl⟩
  intro en_srt vi_srt d fs em vm
  cases d with
  | false =>
    exact ⟨chars (r"[v2]format=yuv420p[vout]"),
      by simp [build_filter_complex, List.append_assoc], by decide⟩
  | true =>
    exact ⟨chars (r"[v2]scale=-2:720[vout]"),
      by simp [build_filter_complex, List.append_assoc], by decide⟩

/-- CLAIM C4: the chain ends in exactly one final stage selected by the
downscale flag — the 720p rescale stage with even computed width when the flag
is set, the pixel-format passthrough stage otherwise — and the two candidate
stages are distinct, the rescale stage holding no format filter and the
format stage no scale filter. -/
theorem C4_downscale_stage :
    ∀ en_srt vi_srt d fs em vm, ∃ pre,
      build_filter_complex en_srt vi_srt d fs em vm =
        pre ++ [';'] ++
          (if d then chars (r"[v2]scale=-2:720[vout]") else chars (r"[v2]format=yuv420p[vout]"))
      ∧ containsSub (chars (r"scale=")) (chars (r"[v2]format=yuv420p[vout]")) = false
      ∧ containsSub (chars (r"format=")) (chars (r"[v2]scale=-2:720[vout]")) = false
      ∧ (chars (r"[v2]scale=-2:720[vout]") == chars (r"[v2]format=yuv420p[vout]")) = false := by
  intro en_srt vi_srt d fs em vm
  refine ⟨(chars (r"[0:v]subtitles=") ++ ffmpeg_escape_for_subtitles en_srt ++
      chars (r":charenc=UTF-8:force_style=") ++ [squote] ++
      chars (r"Alignment=2,MarginV=") ++ pyFmtNat em ++ [','] ++ style_common fs ++
      [squote] ++ chars (r"[v1]"))
    ++ [';'] ++
    (chars (r"[v1]subtitles=") ++ ffmpeg_escape_for_subtitles vi_srt ++
      chars (r":charenc=UTF-8:force_style=") ++ [squote] ++
      chars (r"Alignment=2,MarginV=") ++ pyFmtNat vm ++ [','] ++ style_common fs ++
      [squote] ++ chars (r"[v2]")), ?_, by decide, by decide, by decide⟩
  cases d with
  | false => simp [build_filter_complex, List.append_assoc]
  | true => simp [build_filter_complex, List.append_assoc]

/-- A dropped path whose stripped form is a directory sets the output slot. -/
theorem drop_step_dir (f : List Char → Bool) (st : SlotState) (p : List Char)
    (h1 : pyStrip p ≠ []) (h2 : f (pyStrip p) = true) :
    on_multi_drop_step f st p = { st with out_dir := pyStrip p } := by
  simp only [on_multi_drop_step]
  rw [if_neg h1, if_pos h2]

/-- A dropped file with a video extension sets the video slot. -/
theorem drop_step_video (f : List Char → Bool) (st : SlotState) (p : List Char)
    (h1 : pyStrip p ≠ []) (h2 : f (pyStrip p) = false)
    (h3 : pyLower (pathSuffix (pyStrip p)) ∈ VID_EXTS) :
    on_multi_drop_step f st p = { st with video_path := pyStrip p } := by
  simp only [on_multi_drop_step]
  rw [if_neg h1, if_neg (by simp [h2]), if_pos h3]

/-- A dropped subtitle file whose lowercase name holds a Vietnamese hint sets
the Vietnamese slot. -/
theorem drop_step_srt_hint (f : List Char → Bool) (st : SlotState) (p : List Char)
    (h1 : pyStrip p ≠ []) (h2 : f (pyStrip p) = false)
    (h3 : pyLower (pathSuffix (pyStrip p)) = chars (r".srt"))
    (h4 : vi_hints.any (fun k => containsSub k (pyLower (pathName (pyStrip p)))) = true) :
    on_multi_drop_step f st p = { st with vi_srt_path := pyStrip p } := by
  simp only [on_multi_drop_step]
  rw [if_neg h1, if_neg (by simp [h2]), if_neg (by rw [h3]; decide), if_pos h3, if_pos h4]

/-- A hint-free dropped subtitle file fills the English slot when it is empty. -/
theorem drop_step_srt_first (f : List Char → Bool) (st : SlotState) (p : List Char)
    (h1 : pyStrip p ≠ []) (h2 : f (pyStrip p) = false)
    (h3 : pyLower (pathSuffix (pyStrip p)) = chars (r".srt"))
    (h4 : vi_hints.any (fun k => containsSub k (pyLower (pathName (pyStrip p)))) = false)
    (h5 : st.en_srt_path = []) :
    on_multi_drop_step f st p = { st with en_srt_path := pyStrip p } := by
  simp only [on_multi_drop_step]
  rw [if_neg h1, if_neg (by simp [h2]), if_neg (by rw [h3]; decide), if_pos h3,
    if_neg (by simp [h4]), if_pos h5]

/-- A hint-free dropped subtitle file goes to the Vietnamese slot when the
English slot is already filled. -/
theorem drop_step_srt_second (f : List Char → Bool) (st : SlotState) (p : List Char)
    (h1 : pyStrip p ≠ []) (h2 : f (pyStrip p) = false)
    (h3 : pyLower (pathSuffix (pyStrip p)) = chars (r".srt"))
    (h4 : vi_hints.any (fun k => containsSub k (pyLower (pathName (pyStrip p)))) = false)
    (h5 : st.en_srt_path ≠ []) :
    on_multi_drop_step f st p = { st with vi_srt_path := pyStrip p } := by
  simp only [on_multi_drop_step]
  rw [if_neg h1, if_neg (by simp [h2]), if_neg (by rw [h3]; decide), if_pos h3,
    if_neg (by simp [h4]), if_neg h5]

/-- The last dropped directory wins the output slot. -/
theorem drop_outdir_last (f : List Char → Bool) (st : SlotState) (ps : List (List Char))
    (p : List Char) (h1 : pyStrip p ≠ []) (h2 : f (pyStrip p) = true) :
    (on_multi_drop f st (ps ++ [p])).out_dir = pyStrip p := by
  simp only [on_multi_drop, List.foldl_append, List.foldl_cons, List.foldl_nil]
  rw [drop_step_dir f _ p h1 h2]

/-- The last dropped video file wins the video slot. -/
theorem drop_video_last (f : List Char → Bool) (st : SlotState) (ps : List (List Char))
    (p : List Char) (h1 : pyStrip p ≠ []) (h2 : f (pyStrip p) = false)
    (h3 : pyLower (pathSuffix (pyStrip p)) ∈ VID_EXTS) :
    (on_multi_drop f st (ps ++ [p])).video_path = pyStrip p := by
  simp only [on_multi_drop, List.foldl_append, List.foldl_cons, List.foldl_nil]
  rw [drop_step_video f _ p h1 h2 h3]

/-- CLAIM C5: the multi-file drop classifier routes each dropped path by its
kind — a directory sets the output slot (last one wins), a video-extension
file sets the video slot (last one wins), a subtitle file with a Vietnamese
name hint goes to the Vietnamese slot, any other subtitle file fills the
English slot when empty and the Vietnamese slot otherwise; the concrete drop
of a movie, a hint-free subtitle and a Vietnamese-named subtitle fills the
three slots as the spec states, and two hint-free subtitles fill English then
Vietnamese. -/
theorem C5_drop_classifier :
    (∀ (f : List Char → Bool) (st : SlotState) (p : List Char),
      pyStrip p ≠ [] → f (pyStrip p) = true →
      on_multi_drop_step f st p = { st with out_dir := pyStrip p })
    ∧ (∀ (f : List Char → Bool) (st : SlotState) (p : List Char),
      pyStrip p ≠ [] → f (pyStrip p) = false →
      pyLower (pathSuffix (pyStrip p)) ∈ VID_EXTS →
      on_multi_drop_step f st p = { st with video_path := pyStrip p })
    ∧ (∀ (f : List Char → Bool) (st : SlotState) (p : List Char),
      pyStrip p ≠ [] → f (pyStrip p) = false →
      pyLower (pathSuffix (pyStrip p)) = chars (r".srt") →
      vi_hints.any (fun k => containsSub k (pyLower (pathName (pyStrip p)))) = true →
      on_multi_drop_step f st p = { st with vi_srt_path := pyStrip p })
    ∧ (∀ (f : List Char → Bool) (st : SlotState) (p : List Char),
      pyStrip p ≠ [] → f (pyStrip p) = false →
      pyLower (pathSuffix (pyStrip p)) = chars (r".srt") →
      vi_hints.any (fun k => containsSub k (pyLower (pathName (pyStrip p)))) = false →
      st.en_srt_path = [] →
      on_multi_drop_step f st p = { st with en_srt_path := pyStrip p })
    ∧ (∀ (f : List Char → Bool) (st : SlotState) (p : List Char),
      pyStrip p ≠ [] → f (pyStrip p) = false →
      pyLower (pathSuffix (pyStrip p)) = chars (r".srt") →
      vi_hints.any (fun k => containsSub k (pyLower (pathName (pyStrip p)))) = false →
      st.en_srt_path ≠ [] →
      on_multi_drop_step f st p = { st with vi_srt_path := pyStrip p })
    ∧ (∀ (f : List Char → Bool) (st : SlotState) (ps : List (List Char)) (p : List Char),
      pyStrip p ≠ [] → f (pyStrip p) = true →
      (on_multi_drop f st (ps ++ [p])).out_dir = pyStrip p)
    ∧ (∀ (f : List Char → Bool) (st : SlotState) (ps : List (List Char)) (p : List Char),
      pyStrip p ≠ [] → f (pyStrip p) = false →
      pyLower (pathSuffix (pyStrip p)) ∈ VID_EXTS →
      (on_multi_drop f st (ps ++ [p])).video_path = pyStrip p)
    ∧ on_multi_drop (fun _ => false) (SlotState.mk [] [] [] [])
        [chars (r"/a/movie.mp4"), chars (r"/a/english.srt"), chars (r"/a/vietnamese_sub.srt")] =
      SlotState.mk (chars (r"/a/movie.mp4")) (chars (r"/a/english.srt"))
        (chars (r"/a/vietnamese_sub.srt")) []
    ∧ on_multi_drop (fun _ => false) (SlotState.mk [] [] [] [])
        [chars (r"/a/alpha.srt"), chars (r"/a/beta.srt")] =
      SlotState.mk [] (chars (r"/a/alpha.srt")) (chars (r"/a/beta.srt")) [] :=
  ⟨drop_step_dir, drop_step_video, drop_step_srt_hint, drop_step_srt_first,
    drop_step_srt_second, drop_outdir_last, drop_video_last, by decide, by decide⟩

/-- Witness for C5: each universally quantified clause applied at a concrete
drop, plus the two closed example drops. -/
theorem C5_drop_classifier_witness :
    on_multi_drop_step (fun q => q == chars (r"/outdir")) (SlotState.mk [] [] [] [])
        (chars (r"/outdir")) =
      SlotState.mk [] [] [] (chars (r"/outdir"))
    ∧ on_multi_drop_step (fun _ => false) (SlotState.mk [] [] [] []) (chars (r"/a/clip.mkv")) =
      SlotState.mk (chars (r"/a/clip.mkv")) [] [] []
    ∧ on_multi_drop_step (fun _ => false) (SlotState.mk [] [] [] [])
        (chars (r"/a/vietnamese_sub.srt")) =
      SlotState.mk [] [] (chars (r"/a/vietnamese_sub.srt")) []
    ∧ on_multi_drop_step (fun _ => false) (SlotState.mk [] [] [] []) (chars (r"/a/alpha.srt")) =
      SlotState.mk [] (chars (r"/a/alpha.srt")) [] []
    ∧ on_multi_drop_step (fun _ => false)
        (SlotState.mk [] (chars (r"/a/alpha.srt")) [] []) (chars (r"/a/beta.srt")) =
      SlotState.mk [] (chars (r"/a/alpha.srt")) (chars (r"/a/beta.srt")) []
    ∧ (on_multi_drop (fun q => q == chars (r"/outdir"))
        (SlotState.mk [] [] [] []) [chars (r"/a/alpha.srt"), chars (r"/outdir")]).out_dir =
      chars (r"/outdir")
    ∧ (on_multi_drop (fun _ => false)
        (SlotState.mk [] [] [] []) [chars (r"/a/alpha.srt"), chars (r"/a/clip.mkv")]).video_path =
      chars (r"/a/clip.mkv") :=
  ⟨C5_drop_classifier.1 _ _ _ (by decide) (by decide),
   C5_drop_classifier.2.1 _ _ _ (by decide) (by decide) (by decide),
   C5_drop_classifier.2.2.1 _ _ _ (by decide) (by decide) (by decide) (by decide),
   C5_drop_classifier.2.2.2.1 _ _ _ (by decide) (by decide) (by decide) (by decide) (by decide),
   C5_drop_classifier.2.2.2.2.1 _ _ _ (by decide) (by decide) (by decide) (by decide) (by decide),
   C5_drop_classifier.2.2.2.2.2.1 _ _ [chars (r"/a/alpha.srt")] _ (by decide) (by decide),
   C5_drop_classifier.2.2.2.2.2.2.1 _ _ [chars (r"/a/alpha.srt")] _ (by decide) (by decide) (by decide)⟩

/-- A single classifier step never changes a non-empty English slot. -/
theorem drop_step_preserves_en (f : List Char → Bool) (st : SlotState) (p : List Char)
    (h : st.en_srt_path ≠ []) :
    (on_multi_drop_step f st p).en_srt_path = st.en_srt_path := by
  simp only [on_multi_drop_step]
  repeat' split
  all_goals simp_all

/-- CLAIM C10: processing a drop never overwrites a non-empty English subtitle
slot, whatever the dropped paths and the prior slot state. -/
theorem C10_en_slot_preserved (f : List Char → Bool) (st : SlotState)
    (paths : List (List Char)) (h : st.en_srt_path ≠ []) :
    (on_multi_drop f st paths).en_srt_path = st.en_srt_path := by
  induction paths generalizing st with
  | nil => rfl
  | cons p ps ih =>
    have hs := drop_step_preserves_en f st p h
    have hne : (on_multi_drop_step f st p).en_srt_path ≠ [] := by rw [hs]; exact h
    calc (on_multi_drop f (on_multi_drop_step f st p) ps).en_srt_path
        = (on_multi_drop_step f st p).en_srt_path := ih _ hne
      _ = st.en_srt_path := hs

/-- Witness for C10: a drop of a video, a directory and two subtitles onto a
state whose English slot is filled leaves that slot unchanged. -/
theorem C10_en_slot_preserved_witness :
    (chars (r"/keep/en.srt") ≠ ([] : List Char))
    ∧ (on_multi_drop (fun q => q == chars (r"/outdir"))
        (SlotState.mk [] (chars (r"/keep/en.srt")) [] [])
        [chars (r"/a/movie.mp4"), chars (r"/outdir"), chars (r"/a/alpha.srt"),
          chars (r"/a/vietnamese_sub.srt")]).en_srt_path =
      chars (r"/keep/en.srt") :=
  ⟨by decide,
   C10_en_slot_preserved (fun q => q == chars (r"/outdir"))
     (SlotState.mk [] (chars (r"/keep/en.srt")) [] [])
     [chars (r"/a/movie.mp4"), chars (r"/outdir"), chars (r"/a/alpha.srt"),
       chars (r"/a/vietnamese_sub.srt")] (by decide)⟩

/-- CLAIM C6: the start action launches a run if and only if the three
selected paths are files and the output directory is a directory; any failed
check blocks with its specific error (no run is launched, the interface stays
Idle), and a launched run outputs video-stem_dual_subbed.mp4 inside the
chosen output directory. -/
theorem C6_start_validation :
    ∀ (env : FsEnv) (v e w o : List Char),
      (app_start env v e w o =
          StartResult.launched
            (pathJoin (pyStrip o) (pathStem (pyStrip v) ++ chars (r"_dual_subbed.mp4")))
        ↔ (env.isFile (pyStrip v) = true ∧ env.isFile (pyStrip e) = true ∧
           env.isFile (pyStrip w) = true ∧ env.isDir (pyStrip o) = true))
      ∧ (∀ p, app_start env v e w o = StartResult.launched p →
          p = pathJoin (pyStrip o) (pathStem (pyStrip v) ++ chars (r"_dual_subbed.mp4")))
      ∧ (¬(env.isFile (pyStrip v) = true ∧ env.isFile (pyStrip e) = true ∧
            env.isFile (pyStrip w) = true) →
          app_start env v e w o = StartResult.blockedMissingFile)
      ∧ ((env.isFile (pyStrip v) = true ∧ env.isFile (pyStrip e) = true ∧
            env.isFile (pyStrip w) = true) → env.isDir (pyStrip o) = false →
          app_start env v e w o = StartResult.blockedMissingFolder) := by
  intro env v e w o
  by_cases hv : env.isFile (pyStrip v) = true <;>
    by_cases he : env.isFile (pyStrip e) = true <;>
      by_cases hw : env.isFile (pyStrip w) = true <;>
        by_cases ho : env.isDir (pyStrip o) = true <;>
          simp_all [app_start]

/-- Witness for C6: with oracles accepting every path, start launches with the
expected output path; with a rejecting directory oracle it blocks on the
folder; with a rejecting file oracle it blocks on the files. -/
theorem C6_start_validation_witness :
    app_start (FsEnv.mk (fun _ => true) (fun _ => true))
        (chars (r"/v/sample.mp4")) (chars (r"/e.srt")) (chars (r"/w.srt")) (chars (r"/out")) =
      StartResult.launched
        (pathJoin (pyStrip (chars (r"/out")))
          (pathStem (pyStrip (chars (r"/v/sample.mp4"))) ++ chars (r"_dual_subbed.mp4")))
    ∧ app_start (FsEnv.mk (fun _ => true) (fun _ => false))
        (chars (r"/v/sample.mp4")) (chars (r"/e.srt")) (chars (r"/w.srt")) (chars (r"/out")) =
      StartResult.blockedMissingFolder
    ∧ app_start (FsEnv.mk (fun _ => false) (fun _ => true))
        (chars (r"/v/sample.mp4")) (chars (r"/e.srt")) (chars (r"/w.srt")) (chars (r"/out")) =
      StartResult.blockedMissingFile :=
  ⟨(C6_start_validation (FsEnv.mk (fun _ => true) (fun _ => true))
      (chars (r"/v/sample.mp4")) (chars (r"/e.srt")) (chars (r"/w.srt"))
      (chars (r"/out"))).1.mpr ⟨rfl, rfl, rfl, rfl⟩,
   (C6_start_validation (FsEnv.mk (fun _ => true) (fun _ => false))
      (chars (r"/v/sample.mp4")) (chars (r"/e.srt")) (chars (r"/w.srt"))
      (chars (r"/out"))).2.2.2 ⟨rfl, rfl, rfl⟩ rfl,
   (C6_start_validation (FsEnv.mk (fun _ => false) (fun _ => true))
      (chars (r"/v/sample.mp4")) (chars (r"/e.srt")) (chars (r"/w.srt"))
      (chars (r"/out"))).2.2.1 (by simp)⟩

/-- CLAIM C7: for every job-parameter tuple, the ffmpeg argument list holds
the overwrite flag, maps the labeled filtered video stream and the optional
audio stream as adjacent argument pairs, holds the faststart flag pair, and
ends with the output path. -/
theorem C7_ffmpeg_cmd_shape :
    ∀ (ffmpeg video en_srt vi_srt out_path mode : List Char) (d : Bool) (fs em vm : Nat),
      chars (r"-y") ∈ run_ffmpeg_cmd ffmpeg video en_srt vi_srt out_path mode d fs em vm
      ∧ (∃ u w, run_ffmpeg_cmd ffmpeg video en_srt vi_srt out_path mode d fs em vm =
          u ++ [chars (r"-map"), chars (r"[vout]")] ++ w)
      ∧ (∃ u w, run_ffmpeg_cmd ffmpeg video en_srt vi_srt out_path mode d fs em vm =
          u ++ [chars (r"-map"), chars (r"0:a?")] ++ w)
      ∧ (∃ u w, run_ffmpeg_cmd ffmpeg video en_srt vi_srt out_path mode d fs em vm =
          u ++ [chars (r"-movflags"), chars (r"+faststart")] ++ w)
      ∧ (run_ffmpeg_cmd ffmpeg video en_srt vi_srt out_path mode d fs em vm).getLast? =
          some out_path := by
  intro ffmpeg video en_srt vi_srt out_path mode d fs em vm
  refine ⟨?_, ?_, ?_, ?_, ?_⟩
  · simp [run_ffmpeg_cmd]
  · exact ⟨[ffmpeg, chars (r"-y"), chars (r"-i"), video, chars (r"-filter_complex"),
      build_filter_complex en_srt vi_srt d fs em vm],
      [chars (r"-map"), chars (r"0:a?")] ++ (build_encode_args mode).1 ++
        (build_encode_args mode).2 ++ [chars (r"-movflags"), chars (r"+faststart"), out_path],
      by simp [run_ffmpeg_cmd]⟩
  · exact ⟨[ffmpeg, chars (r"-y"), chars (r"-i"), video, chars (r"-filter_complex"),
      build_filter_complex en_srt vi_srt d fs em vm, chars (r"-map"), chars (r"[vout]")],
      (build_encode_args mode).1 ++ (build_encode_args mode).2 ++
        [chars (r"-movflags"), chars (r"+faststart"), out_path],
      by simp [run_ffmpeg_cmd]⟩
  · exact ⟨[ffmpeg, chars (r"-y"), chars (r"-i"), video, chars (r"-filter_complex"),
      build_filter_complex en_srt vi_srt d fs em vm, chars (r"-map"), chars (r"[vout]"),
      chars (r"-map"), chars (r"0:a?")] ++ (build_encode_args mode).1 ++
        (build_encode_args mode).2,
      [out_path],
      by simp [run_ffmpeg_cmd]⟩
  · have h : run_ffmpeg_cmd ffmpeg video en_srt vi_srt out_path mode d fs em vm =
      ([ffmpeg, chars (r"-y"), chars (r"-i"), video, chars (r"-filter_complex"),
        build_filter_complex en_srt vi_srt d fs em vm, chars (r"-map"), chars (r"[vout]"),
        chars (r"-map"), chars (r"0:a?")] ++ (build_encode_args mode).1 ++
        (build_encode_args mode).2 ++ [chars (r"-movflags"), chars (r"+faststart")]) ++
        [out_path] := by
      simp [run_ffmpeg_cmd]
    rw [h, List.getLast?_concat]

/-- CLAIM C8: the resolver returns the PATH hit when there is one; with no
PATH hit it returns the well-known Windows location exactly when the system is
Windows and that file exists; in every other case it fails with the
tool-not-found error rather than returning a path. -/
theorem C8_tool_resolution :
    (∀ (env : ToolEnv) (p : List Char), env.which_ffmpeg = some p →
      ffmpeg_path_guess env = Except.ok p)
    ∧ (∀ env : ToolEnv, env.which_ffmpeg = none → env.system = chars (r"Windows") →
        env.win_candidate_exists = true →
        ffmpeg_path_guess env = Except.ok (chars (r"C:/ffmpeg/bin/ffmpeg.exe")))
    ∧ (∀ env : ToolEnv, env.which_ffmpeg = none →
        ¬(env.system = chars (r"Windows") ∧ env.win_candidate_exists = true) →
        ffmpeg_path_guess env =
          Except.error (chars (r"FFmpeg executable not found. Install it or add to PATH.")))
    ∧ (∀ (env : ToolEnv) (msg : List Char), ffmpeg_path_guess env = Except.error msg →
        env.which_ffmpeg = none ∧
          ¬(env.system = chars (r"Windows") ∧ env.win_candidate_exists = true) ∧
          msg = chars (r"FFmpeg executable not found. Install it or add to PATH.")) := by
  refine ⟨?_, ?_, ?_, ?_⟩
  · intro env p h
    simp [ffmpeg_path_guess, h]
  · intro env h hs hw
    simp [ffmpeg_path_guess, h, hs, hw]
  · intro env h hn
    simp only [ffmpeg_path_guess, h]
    rw [if_neg hn]
  · intro env msg h
    match hw : env.which_ffmpeg with
    | some p => simp [ffmpeg_path_guess, hw] at h
    | none =>
      by_cases hc : env.system = chars (r"Windows") ∧ env.win_candidate_exists = true
      · rw [ffmpeg_path_guess.eq_def, hw] at h
        simp only [if_pos hc] at h
        exact Except.noConfusion h
      · simp only [ffmpeg_path_guess, hw, if_neg hc, Except.error.injEq] at h
        exact ⟨rfl, hc, h.symm⟩

/-- Witness for C8: the three resolution outcomes at concrete environments. -/
theorem C8_tool_resolution_witness :
    ffmpeg_path_guess (ToolEnv.mk (some (chars (r"/usr/bin/ffmpeg"))) (chars (r"Linux")) false) =
      Except.ok (chars (r"/usr/bin/ffmpeg"))
    ∧ ffmpeg_path_guess (ToolEnv.mk none (chars (r"Windows")) true) =
      Except.ok (chars (r"C:/ffmpeg/bin/ffmpeg.exe"))
    ∧ ffmpeg_path_guess (ToolEnv.mk none (chars (r"Linux")) false) =
      Except.error (chars (r"FFmpeg executable not found. Install it or add to PATH.")) :=
  ⟨C8_tool_resolution.1 _ (chars (r"/usr/bin/ffmpeg")) rfl,
   C8_tool_resolution.2.1 _ rfl rfl rfl,
   C8_tool_resolution.2.2.1 _ rfl (by decide)⟩
